import Mathlib

/-!
Verification of the HID transport-bridging and bus fan-out layer (hidbus,
iichid, usbhid). The definitions below are shallow embeddings of the C
sources: machine integers are Nat (reduced mod 2^w where a store truncates),
kernel pointers that may be NULL are Option, fallible calls return Except or
pair an errno with the updated state, and loops over STAILQ lists are
structural recursions over Lean lists in the same iteration order.
-/

namespace HidSpec

/-- errno value EIO from the platform sys/errno.h (external to the sources). -/
def EIO : Nat := 5

/-- errno value ENXIO from the platform sys/errno.h (external to the sources). -/
def ENXIO : Nat := 6

/-- errno value EINVAL from the platform sys/errno.h (external to the sources). -/
def EINVAL : Nat := 22

/-- errno value ENOBUFS from the platform sys/errno.h (external to the sources). -/
def ENOBUFS : Nat := 55

/-- errno value ETIMEDOUT from the platform sys/errno.h (external to the sources). -/
def ETIMEDOUT : Nat := 60

/-- Kinds of HID items as produced by the external report-descriptor parser
(enum hid_kind of the USB HID parser, an out-of-scope collaborator). -/
inductive HidKind where
  | input
  | output
  | feature
  | collection
  | endcollection
deriving DecidableEq

/-- One parsed HID item as returned by hid_get_item: exactly the fields of
struct hid_item that hidbus_enumerate_children inspects. -/
structure HidItem where
  kind : HidKind
  collevel : Nat
  usage : Nat
deriving DecidableEq

/-- A subscriber record as created by hidbus_add_child during enumeration and
filled through hidbus_set_index / hidbus_set_usage (struct hidbus_ivar, the
fields written by hidbus_enumerate_children). -/
structure TlcChild where
  index : Nat
  usage : Nat
deriving DecidableEq

/-- The test selecting items that create children in
hidbus_enumerate_children: hi.kind == hid_collection and hi.collevel == 1. -/
def isTopLevelCollection (hi : HidItem) : Bool :=
  decide (hi.kind = HidKind.collection ∧ hi.collevel = 1)

/-- The while (hid_get_item) loop of hidbus_enumerate_children: walks the
parsed items, adds one child per top level collection, assigns the running
index (a uint8_t in the source, hence the successor is taken mod 256) and the
item usage. Returns the created children in encounter order together with the
final value of the index counter. -/
def hidbus_enumerate_loop : List HidItem → Nat → List TlcChild × Nat
  | [], index => ([], index)
  | hi :: rest, index =>
    if hi.kind = HidKind.collection ∧ hi.collevel = 1 then
      let r := hidbus_enumerate_loop rest ((index + 1) % 256)
      (⟨index, hi.usage⟩ :: r.1, r.2)
    else
      hidbus_enumerate_loop rest index

/-- hidbus_enumerate_children. The argument none models
HID_GET_REPORT_DESCR failing (immediate ENXIO); some items is the parsed
report descriptor. A zero final index yields ENXIO, otherwise the created
subscriber records are returned. -/
def hidbus_enumerate_children (descr : Option (List HidItem)) :
    Except Nat (List TlcChild) :=
  match descr with
  | none => Except.error ENXIO
  | some items =>
    let r := hidbus_enumerate_loop items 0
    if r.2 = 0 then Except.error ENXIO else Except.ok r.1

/-- hidbus_attach: on enumeration failure the bus detaches again (freeing
every subscriber record) and attach returns ENXIO; on success the subscriber
set is the enumerated list. -/
def hidbus_attach (descr : Option (List HidItem)) : Except Nat (List TlcChild) :=
  match hidbus_enumerate_children descr with
  | Except.error _ => Except.error ENXIO
  | Except.ok tlcs => Except.ok tlcs

/-- Runtime state of one subscriber record (struct hidbus_ivar as used by
hid_set_intr, hid_start, hid_stop and hidbus_intr): the child device
identity, the registered interrupt callback (none models a NULL pointer) and
the open flag. The source field named open is called isOpen here. -/
structure Tlc where
  child : Nat
  intr : Option Nat
  isOpen : Bool
deriving DecidableEq

/-- hid_set_intr: the STAILQ_FOREACH loop stores the callback into every
record whose child matches. -/
def hid_set_intr (s : List Tlc) (c : Nat) (f : Option Nat) : List Tlc :=
  s.map (fun t => if t.child = c then { t with intr := f } else t)

/-- The STAILQ_FOREACH loop of hid_start: for each record it first folds the
record's (pre-assignment) open flag into the accumulator opn, then marks the
record open if its child matches. -/
def hid_start_loop : List Tlc → Nat → Bool → List Tlc × Bool
  | [], _, opn => ([], opn)
  | t :: ts, c, opn =>
    let opn1 := opn || t.isOpen
    let t1 := if t.child = c then { t with isOpen := true } else t
    let r := hid_start_loop ts c opn1
    (t1 :: r.1, r.2)

/-- hid_start: marks the child open; if no record was open before the call,
HID_INTR_START is invoked on the transport (second component true). -/
def hid_start (s : List Tlc) (c : Nat) : List Tlc × Bool :=
  let r := hid_start_loop s c false
  (r.1, !r.2)

/-- The STAILQ_FOREACH loop of hid_stop: for each record it first clears the
open flag if the child matches, then folds the record's (post-assignment)
open flag into the accumulator opn. -/
def hid_stop_loop : List Tlc → Nat → Bool → List Tlc × Bool
  | [], _, opn => ([], opn)
  | t :: ts, c, opn =>
    let t1 := if t.child = c then { t with isOpen := false } else t
    let opn1 := opn || t1.isOpen
    let r := hid_stop_loop ts c opn1
    (t1 :: r.1, r.2)

/-- hid_stop: clears the child's open flag; if no record remains open after
the call, HID_INTR_STOP is invoked on the transport (second component true). -/
def hid_stop (s : List Tlc) (c : Nat) : List Tlc × Bool :=
  let r := hid_stop_loop s c false
  (r.1, !r.2)

/-- Whether any subscriber record is open. -/
def anyOpen (s : List Tlc) : Bool := s.any (fun t => t.isOpen)

/-- hidbus_intr: the broadcast loop over the subscriber list; returns the
callback invocations (child, buffer, length) made, in subscriber order. -/
def hidbus_intr (s : List Tlc) (buf : List Nat) (len : Nat) :
    List (Nat × List Nat × Nat) :=
  match s with
  | [] => []
  | t :: ts =>
    if t.isOpen then (t.child, buf, len) :: hidbus_intr ts buf len
    else hidbus_intr ts buf len

/-- The KASSERT guarding each callback invocation in hidbus_intr: true iff no
open record carries a NULL callback (so the assertion cannot fire during a
dispatch over state s). -/
def hidbus_intr_assert_ok (s : List Tlc) : Bool :=
  s.all (fun t => !t.isOpen || t.intr.isSome)

/-- The three bus-registry operations a child device can perform on the
subscriber list. -/
inductive BusOp where
  | setIntr (c : Nat) (f : Option Nat)
  | start (c : Nat)
  | stop (c : Nat)
deriving DecidableEq

/-- State transition of the subscriber list under one operation. -/
def applyBusOp (s : List Tlc) : BusOp → List Tlc
  | BusOp.setIntr c f => hid_set_intr s c f
  | BusOp.start c => (hid_start s c).1
  | BusOp.stop c => (hid_stop s c).1

/-- State after a sequence of bus operations. -/
def applyBusOps (s : List Tlc) (ops : List BusOp) : List Tlc :=
  ops.foldl applyBusOp s

/-- Discipline followed by well-behaved children: a child is only opened once
its callback is registered, and a callback is only cleared while the child is
closed. -/
def goodOps : List Tlc → List BusOp → Bool
  | _, [] => true
  | s, op :: rest =>
    (match op with
     | BusOp.start c => s.all (fun t => !(t.child == c) || t.intr.isSome)
     | BusOp.setIntr c f =>
       f.isSome || s.all (fun t => !(t.child == c) || !t.isOpen)
     | BusOp.stop _ => true) && goodOps (applyBusOp s op) rest

/-- Modelled from the spec: the GET_REPORT opcode written into byte 3 of the
I2C-HID command frame. Its numeric value comes from iichid.h, which is not
among the given sources; only its position in the frame is relied upon (the
I2C-HID standard value is 2). -/
def I2C_HID_CMD_GET_REPORT : Nat := 2

/-- The seven-entry cmd array built by iichid_get_report, elementwise as in
the source ternaries; every entry is stored into a uint8_t, hence reduced mod
256. cmdreg and dtareg are the little-endian uint16_t command and data
register addresses, typ and id the report type and report ID. -/
def iichid_get_report_cmd (cmdreg dtareg typ id : Nat) : List Nat :=
  if 15 ≤ id then
    [ cmdreg % 256,
      (cmdreg / 256) % 256,
      (15 ||| (typ <<< 4)) % 256,
      I2C_HID_CMD_GET_REPORT % 256,
      id % 256,
      (dtareg % 256) % 256,
      ((dtareg / 256) % 256) % 256 ]
  else
    [ cmdreg % 256,
      (cmdreg / 256) % 256,
      (id ||| (typ <<< 4)) % 256,
      I2C_HID_CMD_GET_REPORT % 256,
      (dtareg % 256) % 256,
      ((dtareg / 256) % 256) % 256,
      0 % 256 ]

/-- cmdlen selected by iichid_get_report: 7 for report IDs of 15 and above,
6 otherwise. -/
def iichid_get_report_cmdlen (id : Nat) : Nat := if 15 ≤ id then 7 else 6

/-- The command frame actually handed to iichid_fetch_buffer: the first
cmdlen bytes of the cmd array. -/
def iichid_get_report_frame (cmdreg dtareg typ id : Nat) : List Nat :=
  (iichid_get_report_cmd cmdreg dtareg typ id).take (iichid_get_report_cmdlen id)

/-- The report_id_len of iichid_get_report: 2 for report IDs of 15 and
above, 1 otherwise. -/
def iichid_report_id_len (id : Nat) : Nat := if 15 ≤ id then 2 else 1

/-- The declared response length read by iichid_get_report: the 2-byte
little-endian prefix of the fetched buffer (indexing a malloc M_ZERO buffer
defaults to 0). -/
def iichid_declared_len (tmprep : List Nat) : Nat :=
  tmprep.getD 0 0 ||| (tmprep.getD 1 0 <<< 8)

/-- The echoed report ID read by iichid_get_report: two little-endian bytes
at offset 2 when report_id_len is 2, else the single byte at offset 2. -/
def iichid_echoed_id (id : Nat) (tmprep : List Nat) : Nat :=
  if iichid_report_id_len id = 2 then tmprep.getD 2 0 ||| (tmprep.getD 3 0 <<< 8)
  else tmprep.getD 2 0

/-- Outcome of one iichid_get_report call: the returned errno, the payload
copied into the caller's buffer (none when nothing is copied), and whether
the response-size mismatch message was logged. -/
structure IichidGetReportResult where
  ret : Nat
  copied : Option (List Nat)
  loggedLenMismatch : Bool
deriving DecidableEq

/-- Response handling of iichid_get_report. fetch = none models
iichid_fetch_buffer returning nonzero (the temporary buffer is freed and the
call fails with EIO); some tmprep is the report_len-byte temporary buffer
after a successful fetch. A declared-length mismatch is logged but not fatal;
an echoed-ID mismatch frees the buffer and returns the nonzero value 1
without copying anything out; otherwise the len payload bytes following the
length prefix and the echoed ID are copied out and 0 is returned. -/
def iichid_get_report (id len : Nat) (fetch : Option (List Nat)) :
    IichidGetReportResult :=
  let report_id_len := iichid_report_id_len id
  let report_len := len + 2 + report_id_len
  match fetch with
  | none => { ret := EIO, copied := none, loggedLenMismatch := false }
  | some tmprep =>
    let mismatch : Bool := decide (iichid_declared_len tmprep ≠ report_len)
    if iichid_echoed_id id tmprep ≠ id then
      { ret := 1, copied := none, loggedLenMismatch := mismatch }
    else
      { ret := 0,
        copied := some ((tmprep.drop (2 + report_id_len)).take len),
        loggedLenMismatch := mismatch }

/-- Acquisition-engine state of the iichid backend: the operator-set sampling
rate (an int; negative requests interrupt mode), whether the periodic callout
is initialised (callout_setup), whether it is scheduled (callout_reset issued
and not stopped), and whether the hardware interrupt is registered (irq
resource allocated and handler installed). -/
structure IichidEngine where
  sampling_rate : Int
  callout_setup : Bool
  callout_armed : Bool
  irq_active : Bool
deriving DecidableEq

/-- iichid_setup_callout: refuses a negative sampling rate with EINVAL,
otherwise initialises the callout and marks callout_setup. -/
def iichid_setup_callout (sc : IichidEngine) : IichidEngine × Nat :=
  if sc.sampling_rate < 0 then (sc, EINVAL)
  else ({ sc with callout_setup := true }, 0)

/-- iichid_reset_callout: refuses a non-positive sampling rate or an
uninitialised callout with EINVAL, otherwise schedules the periodic callout. -/
def iichid_reset_callout (sc : IichidEngine) : IichidEngine × Nat :=
  if sc.sampling_rate ≤ 0 then (sc, EINVAL)
  else if sc.callout_setup then ({ sc with callout_armed := true }, 0)
  else (sc, EINVAL)

/-- iichid_teardown_callout: callout_stop plus clearing callout_setup. -/
def iichid_teardown_callout (sc : IichidEngine) : IichidEngine :=
  { sc with callout_armed := false, callout_setup := false }

/-- iichid_setup_interrupt. irqOk models the IRQ resource allocation and
bus_setup_intr both succeeding; on allocation failure the source only logs
and still returns 0, leaving no interrupt active. -/
def iichid_setup_interrupt (irqOk : Bool) (sc : IichidEngine) :
    IichidEngine × Nat :=
  if irqOk then ({ sc with irq_active := true }, 0) else (sc, 0)

/-- iichid_teardown_interrupt: bus_teardown_intr plus releasing the IRQ
resource. -/
def iichid_teardown_interrupt (sc : IichidEngine) : IichidEngine :=
  { sc with irq_active := false }

/-- iichid_sysctl_sampling_rate_handler after sysctl_handle_int has
successfully read the new value from the request: a value equal to the
current rate is a no-op; otherwise the rate is stored and, on a sign change,
the old event source is torn down and the new one set up; finally a positive
value (re)schedules the periodic callout. -/
def iichid_sysctl_sampling_rate_handler (irqOk : Bool) (sc : IichidEngine)
    (value : Int) : IichidEngine :=
  let oldval := sc.sampling_rate
  if value = oldval then sc
  else
    let sc1 := { sc with sampling_rate := value }
    let sc2 :=
      if oldval < 0 ∧ 0 ≤ value then
        (iichid_setup_callout (iichid_teardown_interrupt sc1)).1
      else if 0 ≤ oldval ∧ value < 0 then
        (iichid_setup_interrupt irqOk (iichid_teardown_callout sc1)).1
      else sc1
    if 0 < value then (iichid_reset_callout sc2).1 else sc2

/-- Exactly one of the two event sources (hardware interrupt, periodic
callout) is active. -/
def exactlyOneEventSource (sc : IichidEngine) : Prop :=
  (sc.irq_active = true ∧ sc.callout_armed = false) ∨
  (sc.irq_active = false ∧ sc.callout_armed = true)

/-- usb_error_t values as seen by the transfer callbacks (external enum);
the code only compares against USB_ERR_CANCELLED. -/
inductive UsbError where
  | cancelled
  | stalled
  | timeout
  | other
deriving DecidableEq

/-- USB_GET_STATE values dispatched on by a transfer callback; the default
branch carries the usb_error_t that completed the transfer. -/
inductive UsbXferState where
  | setup
  | transferred
  | err (e : UsbError)
deriving DecidableEq

/-- Effect of one callback invocation: the transfer is (re-)submitted,
optionally after a usbd_xfer_set_stall, or the exchange completes, writing
errno into xfer_ctx->error and waking the sleeping caller. -/
inductive UsbCbAction where
  | submit (stallCleared : Bool)
  | complete (errno : Nat)
deriving DecidableEq

/-- usbhid_intr_wr_callback: SETUP checks the length against the endpoint
maximum, copies the buffer in and submits; TRANSFERRED completes with 0; any
error other than cancellation clears the stall and falls back into the
tr_setup path (re-submitting), while cancellation completes with EIO. -/
def usbhid_intr_wr_callback (len maxlen : Nat) :
    UsbXferState → UsbCbAction
  | UsbXferState.setup =>
    if maxlen < len then UsbCbAction.complete ENOBUFS
    else UsbCbAction.submit false
  | UsbXferState.transferred => UsbCbAction.complete 0
  | UsbXferState.err e =>
    if e = UsbError.cancelled then UsbCbAction.complete EIO
    else UsbCbAction.submit true

/-- usbhid_ctrl_wr_callback: SETUP checks the length, loads the request
header (and data frame when len is nonzero) and submits; TRANSFERRED
completes with 0; every error completes with EIO. -/
def usbhid_ctrl_wr_callback (len maxlen : Nat) :
    UsbXferState → UsbCbAction
  | UsbXferState.setup =>
    if maxlen < len then UsbCbAction.complete ENOBUFS
    else UsbCbAction.submit false
  | UsbXferState.transferred => UsbCbAction.complete 0
  | UsbXferState.err _ => UsbCbAction.complete EIO

/-- usbhid_ctrl_rd_callback: SETUP checks the length, loads the request
header and submits; TRANSFERRED copies the payload out and completes with 0;
every error bombs out, completing with EIO. -/
def usbhid_ctrl_rd_callback (len maxlen : Nat) :
    UsbXferState → UsbCbAction
  | UsbXferState.setup =>
    if maxlen < len then UsbCbAction.complete ENOBUFS
    else UsbCbAction.submit false
  | UsbXferState.transferred => UsbCbAction.complete 0
  | UsbXferState.err _ => UsbCbAction.complete EIO

/-- The shared synchronous Transfer Context (struct usbhid_xfer_ctx): the
pending device request (none models a NULL req pointer), the caller buffer
(abstracted to an identifier), the requested length, the outcome errno, the
queued-waiter count and the in-flux flag. -/
structure UsbhidXferCtx where
  req : Option Nat
  buf : Nat
  len : Nat
  error : Nat
  waiters : Nat
  influx : Bool
deriving DecidableEq

/-- usbhid_sync_xfer, polling-mode path (HID_IN_POLLING_MODE true, scheduler
stopped): the shared context is saved in full, its request, buffer, length
and outcome fields are overwritten (outcome preset to ETIMEDOUT), the
transfer is started and the completion primitive is re-polled in a bounded
loop; the whole transfer machinery is abstracted as an arbitrary mutation eff
of the context, since the callbacks write through it. The outcome is read
and the saved context is restored in full. Returns the final shared context
and the call result. -/
def usbhid_sync_xfer_poll (tr : UsbhidXferCtx) (req : Option Nat)
    (buf len : Nat) (eff : UsbhidXferCtx → UsbhidXferCtx) :
    UsbhidXferCtx × Nat :=
  let save := tr
  let tr1 := { tr with buf := buf, len := len, req := req, error := ETIMEDOUT }
  let tr2 := eff tr1
  let res := tr2.error
  (save, res)

/-- usbhid_get_report, result reporting: xferError is the outcome of the
usbhid_sync_xfer exchange on the control read transfer; actlen is the pointee
of the actual-length out parameter (none models a NULL pointer). The source
sets the pointee to maxlen itself whenever the exchange succeeded and the
pointer is non-NULL (the control transfer's actual byte count is not plumbed
out of usbhid_sync_xfer at all), and leaves it untouched otherwise. Returns
the call result and the out parameter's final pointee. -/
def usbhid_get_report (xferError : Nat) (maxlen : Nat) (actlen : Option Nat) :
    Nat × Option Nat :=
  if xferError = 0 then
    match actlen with
    | none => (0, none)
    | some _ => (0, some maxlen)
  else (xferError, actlen)

/-! Helper lemmas about the hid_start / hid_stop loops. -/

/-- The accumulator of the hid_start loop collects the pre-call open flags. -/
theorem hid_start_loop_snd (s : List Tlc) (c : Nat) (b : Bool) :
    (hid_start_loop s c b).2 = (b || anyOpen s) := by
  induction s generalizing b with
  | nil => simp [hid_start_loop, anyOpen]
  | cons t ts ih => simp [hid_start_loop, anyOpen, ih, Bool.or_assoc]

/-- The list produced by the hid_start loop is an elementwise update. -/
theorem hid_start_loop_fst (s : List Tlc) (c : Nat) (b : Bool) :
    (hid_start_loop s c b).1 =
      s.map (fun t => if t.child = c then { t with isOpen := true } else t) := by
  induction s generalizing b with
  | nil => rfl
  | cons t ts ih => simp [hid_start_loop, ih]

/-- The list produced by the hid_stop loop is an elementwise update. -/
theorem hid_stop_loop_fst (s : List Tlc) (c : Nat) (b : Bool) :
    (hid_stop_loop s c b).1 =
      s.map (fun t => if t.child = c then { t with isOpen := false } else t) := by
  induction s generalizing b with
  | nil => rfl
  | cons t ts ih => simp [hid_stop_loop, ih]

/-- The accumulator of the hid_stop loop collects the post-call open flags. -/
theorem hid_stop_loop_snd (s : List Tlc) (c : Nat) (b : Bool) :
    (hid_stop_loop s c b).2 = (b || anyOpen (hid_stop_loop s c b).1) := by
  induction s generalizing b with
  | nil => simp [hid_stop_loop, anyOpen]
  | cons t ts ih => simp [hid_stop_loop, anyOpen, ih, Bool.or_assoc]

/-- hid_start invokes HID_INTR_START iff no subscriber was open before. -/
theorem hid_start_snd_eq (s : List Tlc) (c : Nat) :
    (hid_start s c).2 = !(anyOpen s) := by
  simp [hid_start, hid_start_loop_snd]

/-- hid_stop invokes HID_INTR_STOP iff no subscriber is open afterwards. -/
theorem hid_stop_snd_eq (s : List Tlc) (c : Nat) :
    (hid_stop s c).2 = !(anyOpen (hid_stop s c).1) := by
  have h := hid_stop_loop_snd s c false
  simp [hid_stop] at h ⊢
  rw [h]

/-- After hid_start on a child present in the list, some subscriber is open. -/
theorem hid_start_anyOpen_after (s : List Tlc) (c : Nat)
    (hc : c ∈ s.map Tlc.child) : anyOpen (hid_start s c).1 = true := by
  rcases List.mem_map.mp hc with ⟨t, ht, hteq⟩
  have hfst : (hid_start s c).1 =
      s.map (fun t => if t.child = c then { t with isOpen := true } else t) := by
    simp [hid_start, hid_start_loop_fst]
  rw [hfst]
  refine List.any_eq_true.mpr ⟨_, List.mem_map_of_mem _ ht, ?_⟩
  simp [hteq]

/-- C2 counterexample: calling hid_stop on an already-closed subscriber of an
all-closed bus invokes HID_INTR_STOP although the bus was not in the
"at least one subscriber open" state, i.e. although no open-to-idle
transition occurred. -/
theorem hid_stop_redundant_close_counterexample :
    anyOpen [{ child := 0, intr := none, isOpen := false }] = false
    ∧ (hid_stop [{ child := 0, intr := none, isOpen := false }] 0).2 = true :=
  ⟨rfl, rfl⟩

/-- C2 (amended): HID_INTR_START is invoked exactly on those hid_start calls
made while no subscriber is open (for a child belonging to the bus these are
exactly the idle-to-open transitions), and HID_INTR_STOP is invoked exactly
on those hid_stop calls after which no subscriber remains open (the
open-to-idle transitions together with redundant closes issued while the bus
is already idle). -/
theorem hid_start_stop_engine_refcount (s : List Tlc) (c : Nat) :
    ((hid_start s c).2 = true ↔ anyOpen s = false)
    ∧ (c ∈ s.map Tlc.child →
        ((hid_start s c).2 = true ↔
          (anyOpen s = false ∧ anyOpen (hid_start s c).1 = true)))
    ∧ ((hid_stop s c).2 = true ↔ anyOpen (hid_stop s c).1 = false) := by
  refine ⟨?_, ?_, ?_⟩
  · rw [hid_start_snd_eq]
    cases h : anyOpen s <;> simp
  · intro hc
    have hafter := hid_start_anyOpen_after s c hc
    rw [hid_start_snd_eq, hafter]
    cases h : anyOpen s <;> simp
  · rw [hid_stop_snd_eq]
    cases h : anyOpen (hid_stop s c).1 <;> simp

/-- Witness for the C2 theorem at a one-subscriber bus. -/
theorem hid_start_stop_engine_refcount_witness :
    (hid_start [{ child := 0, intr := none, isOpen := false }] 0).2 = true ↔
      (anyOpen [{ child := 0, intr := none, isOpen := false }] = false
       ∧ anyOpen (hid_start [{ child := 0, intr := none, isOpen := false }] 0).1
           = true) :=
  (hid_start_stop_engine_refcount
    [{ child := 0, intr := none, isOpen := false }] 0).2.1 (by decide)

/-- C3: hidbus_intr invokes the callback of exactly the subscribers whose
open flag is set, in subscriber order, handing each the same buffer and
length; closed subscribers receive nothing. -/
theorem hidbus_intr_broadcast (s : List Tlc) (buf : List Nat) (len : Nat) :
    hidbus_intr s buf len =
      (s.filter (fun t => t.isOpen)).map (fun t => (t.child, buf, len)) := by
  induction s with
  | nil => rfl
  | cons t ts ih =>
    by_cases h : t.isOpen
    · simp [hidbus_intr, h, ih]
    · simp [hidbus_intr, h, ih]

/-! Helper lemmas for the open-implies-callback invariant. -/

/-- Unfolds the assertion check to a propositional statement. -/
theorem hidbus_intr_assert_ok_iff (s : List Tlc) :
    hidbus_intr_assert_ok s = true ↔
      ∀ t ∈ s, t.isOpen = true → t.intr.isSome = true := by
  simp only [hidbus_intr_assert_ok, List.all_eq_true, Bool.or_eq_true,
    Bool.not_eq_true']
  constructor
  · intro h t ht hop
    rcases h t ht with h1 | h1
    · rw [hop] at h1
      exact absurd h1 (by simp)
    · exact h1
  · intro h t ht
    cases hb : t.isOpen with
    | false => exact Or.inl rfl
    | true => exact Or.inr (h t ht hb)

/-- Unfolds the goodOps side condition for start operations. -/
theorem goodOps_start_cond_iff (s : List Tlc) (c : Nat) :
    s.all (fun t => !(t.child == c) || t.intr.isSome) = true ↔
      ∀ t ∈ s, t.child = c → t.intr.isSome = true := by
  simp only [List.all_eq_true, Bool.or_eq_true, Bool.not_eq_true',
    beq_eq_false_iff_ne]
  constructor
  · intro h t ht hc
    rcases h t ht with h1 | h1
    · exact absurd hc h1
    · exact h1
  · intro h t ht
    by_cases hc : t.child = c
    · exact Or.inr (h t ht hc)
    · exact Or.inl hc

/-- Unfolds the goodOps side condition for callback-clearing operations. -/
theorem goodOps_clear_cond_iff (s : List Tlc) (c : Nat) :
    s.all (fun t => !(t.child == c) || !t.isOpen) = true ↔
      ∀ t ∈ s, t.child = c → t.isOpen = false := by
  simp only [List.all_eq_true, Bool.or_eq_true, Bool.not_eq_true',
    beq_eq_false_iff_ne]
  constructor
  · intro h t ht hc
    rcases h t ht with h1 | h1
    · exact absurd hc h1
    · exact h1
  · intro h t ht
    by_cases hc : t.child = c
    · exact Or.inr (h t ht hc)
    · exact Or.inl hc

/-- hid_start preserves the invariant when the opened child has a callback. -/
theorem openImpliesIntr_start (s : List Tlc) (c : Nat)
    (h : ∀ t ∈ s, t.isOpen = true → t.intr.isSome = true)
    (hc : ∀ t ∈ s, t.child = c → t.intr.isSome = true) :
    ∀ t ∈ (hid_start s c).1, t.isOpen = true → t.intr.isSome = true := by
  have hfst : (hid_start s c).1 =
      s.map (fun t => if t.child = c then { t with isOpen := true } else t) := by
    simp [hid_start, hid_start_loop_fst]
  rw [hfst]
  intro u hu hop
  rcases List.mem_map.mp hu with ⟨t, ht, rfl⟩
  by_cases hch : t.child = c
  · simpa [hch] using hc t ht hch
  · simp only [if_neg hch] at hop ⊢
    exact h t ht hop

/-- hid_stop preserves the invariant unconditionally. -/
theorem openImpliesIntr_stop (s : List Tlc) (c : Nat)
    (h : ∀ t ∈ s, t.isOpen = true → t.intr.isSome = true) :
    ∀ t ∈ (hid_stop s c).1, t.isOpen = true → t.intr.isSome = true := by
  have hfst : (hid_stop s c).1 =
      s.map (fun t => if t.child = c then { t with isOpen := false } else t) := by
    simp [hid_stop, hid_stop_loop_fst]
  rw [hfst]
  intro u hu hop
  rcases List.mem_map.mp hu with ⟨t, ht, rfl⟩
  by_cases hch : t.child = c
  · simp [hch] at hop
  · simp only [if_neg hch] at hop ⊢
    exact h t ht hop

/-- Registering a real callback preserves the invariant. -/
theorem openImpliesIntr_setIntr_some (s : List Tlc) (c v : Nat)
    (h : ∀ t ∈ s, t.isOpen = true → t.intr.isSome = true) :
    ∀ t ∈ hid_set_intr s c (some v), t.isOpen = true → t.intr.isSome = true := by
  intro u hu hop
  rcases List.mem_map.mp hu with ⟨t, ht, rfl⟩
  by_cases hch : t.child = c
  · simp [hch]
  · simp only [if_neg hch] at hop ⊢
    exact h t ht hop

/-- Clearing the callback of a closed child preserves the invariant. -/
theorem openImpliesIntr_setIntr_none (s : List Tlc) (c : Nat)
    (h : ∀ t ∈ s, t.isOpen = true → t.intr.isSome = true)
    (hcl : ∀ t ∈ s, t.child = c → t.isOpen = false) :
    ∀ t ∈ hid_set_intr s c none, t.isOpen = true → t.intr.isSome = true := by
  intro u hu hop
  rcases List.mem_map.mp hu with ⟨t, ht, rfl⟩
  by_cases hch : t.child = c
  · have := hcl t ht hch
    simp [hch, this] at hop
  · simp only [if_neg hch] at hop ⊢
    exact h t ht hop

/-- C9 counterexample: the bus itself does not enforce the invariant — a
child that calls hid_start without ever registering a callback leaves its
record open with a NULL callback, and the hidbus_intr assertion fires at the
next dispatch. -/
theorem hidbus_open_without_callback_counterexample :
    applyBusOps [{ child := 0, intr := none, isOpen := false }]
        [BusOp.start 0] =
      [{ child := 0, intr := none, isOpen := true }]
    ∧ hidbus_intr_assert_ok
        (applyBusOps [{ child := 0, intr := none, isOpen := false }]
          [BusOp.start 0]) = false :=
  ⟨rfl, rfl⟩

/-- C9 (amended): for children that follow the documented discipline —
register a callback before opening, clear a callback only while closed — the
open-implies-callback invariant holds in every reachable bus state, so the
hidbus_intr assertion can never fire. The bus does not itself enforce the
discipline. -/
theorem hidbus_open_implies_callback (s : List Tlc) (ops : List BusOp)
    (h : hidbus_intr_assert_ok s = true) (hg : goodOps s ops = true) :
    hidbus_intr_assert_ok (applyBusOps s ops) = true := by
  induction ops generalizing s with
  | nil => simpa [applyBusOps] using h
  | cons op rest ih =>
    simp only [goodOps, Bool.and_eq_true] at hg
    obtain ⟨h1, h2⟩ := hg
    have hstep : hidbus_intr_assert_ok (applyBusOp s op) = true := by
      cases op with
      | setIntr c f =>
        cases f with
        | none =>
          simp only [Option.isSome_none, Bool.false_or] at h1
          exact (hidbus_intr_assert_ok_iff _).mpr
            (openImpliesIntr_setIntr_none s c
              ((hidbus_intr_assert_ok_iff s).mp h)
              ((goodOps_clear_cond_iff s c).mp h1))
        | some v =>
          exact (hidbus_intr_assert_ok_iff _).mpr
            (openImpliesIntr_setIntr_some s c v
              ((hidbus_intr_assert_ok_iff s).mp h))
      | start c =>
        exact (hidbus_intr_assert_ok_iff _).mpr
          (openImpliesIntr_start s c
            ((hidbus_intr_assert_ok_iff s).mp h)
            ((goodOps_start_cond_iff s c).mp h1))
      | stop c =>
        exact (hidbus_intr_assert_ok_iff _).mpr
          (openImpliesIntr_stop s c
            ((hidbus_intr_assert_ok_iff s).mp h))
    have hfold : applyBusOps s (op :: rest) = applyBusOps (applyBusOp s op) rest :=
      rfl
    rw [hfold]
    exact ih (applyBusOp s op) hstep h2

/-- Witness for the C9 theorem: a disciplined register-then-open sequence. -/
theorem hidbus_open_implies_callback_witness :
    hidbus_intr_assert_ok
      (applyBusOps [{ child := 0, intr := none, isOpen := false }]
        [BusOp.setIntr 0 (some 3), BusOp.start 0]) = true :=
  hidbus_open_implies_callback
    [{ child := 0, intr := none, isOpen := false }]
    [BusOp.setIntr 0 (some 3), BusOp.start 0] (by decide) (by decide)

/-- C6 counterexample: a control-read transfer that completes with an error
other than explicit cancellation does not stall-clear and re-arm — it
completes the exchange with EIO; the control-write callback behaves the same
way. -/
theorem usbhid_ctrl_error_no_retry_counterexample :
    UsbError.stalled ≠ UsbError.cancelled
    ∧ usbhid_ctrl_rd_callback 4 8 (UsbXferState.err UsbError.stalled) =
        UsbCbAction.complete EIO
    ∧ usbhid_ctrl_wr_callback 4 8 (UsbXferState.err UsbError.stalled) =
        UsbCbAction.complete EIO
    ∧ UsbCbAction.complete EIO ≠ UsbCbAction.submit true := by
  refine ⟨by decide, rfl, rfl, by decide⟩

/-- C6 (amended): only the interrupt-write callback retries — on any error
other than cancellation it clears the stall and re-enters the SETUP path;
both control callbacks complete with EIO on every error, and an explicitly
cancelled interrupt-write completes with EIO as well. -/
theorem usbhid_callback_error_policy (len maxlen : Nat) (e : UsbError) :
    (e ≠ UsbError.cancelled →
      usbhid_intr_wr_callback len maxlen (UsbXferState.err e) =
        UsbCbAction.submit true)
    ∧ usbhid_ctrl_wr_callback len maxlen (UsbXferState.err e) =
        UsbCbAction.complete EIO
    ∧ usbhid_ctrl_rd_callback len maxlen (UsbXferState.err e) =
        UsbCbAction.complete EIO
    ∧ usbhid_intr_wr_callback len maxlen
        (UsbXferState.err UsbError.cancelled) = UsbCbAction.complete EIO := by
  refine ⟨fun h => ?_, rfl, rfl, ?_⟩
  · simp [usbhid_intr_wr_callback, h]
  · simp [usbhid_intr_wr_callback]

/-- Witness for the C6 theorem at a non-cancellation error. -/
theorem usbhid_callback_error_policy_witness :
    usbhid_intr_wr_callback 4 8 (UsbXferState.err UsbError.timeout) =
      UsbCbAction.submit true :=
  (usbhid_callback_error_policy 4 8 UsbError.timeout).1 (by decide)

/-- C8: the polling-mode path of usbhid_sync_xfer restores the shared
Transfer Context in full — after the call every field (request, buffer,
length, outcome, waiter count, in-flux flag) equals its value at entry,
whatever the transfer machinery did in between. -/
theorem usbhid_sync_xfer_poll_restores (tr : UsbhidXferCtx) (req : Option Nat)
    (buf len : Nat) (eff : UsbhidXferCtx → UsbhidXferCtx) :
    (usbhid_sync_xfer_poll tr req buf len eff).1 = tr
    ∧ (usbhid_sync_xfer_poll tr req buf len eff).1.req = tr.req
    ∧ (usbhid_sync_xfer_poll tr req buf len eff).1.buf = tr.buf
    ∧ (usbhid_sync_xfer_poll tr req buf len eff).1.len = tr.len
    ∧ (usbhid_sync_xfer_poll tr req buf len eff).1.error = tr.error
    ∧ (usbhid_sync_xfer_poll tr req buf len eff).1.waiters = tr.waiters
    ∧ (usbhid_sync_xfer_poll tr req buf len eff).1.influx = tr.influx :=
  ⟨rfl, rfl, rfl, rfl, rfl, rfl, rfl⟩

/-- C10: a successful usbhid_get_report reports maxlen itself as the actual
length through a non-NULL out parameter (the control transfer's true byte
count is not plumbed out of the bridge); on failure the out parameter is left
unchanged. -/
theorem usbhid_get_report_actlen (e maxlen : Nat) (p : Option Nat) :
    (e = 0 → ∀ v, p = some v →
      usbhid_get_report e maxlen p = (0, some maxlen))
    ∧ (e ≠ 0 → usbhid_get_report e maxlen p = (e, p)) := by
  constructor
  · rintro rfl v rfl
    rfl
  · intro h
    simp [usbhid_get_report, h]

/-- Witness for the C10 theorem on both the success and failure branches. -/
theorem usbhid_get_report_actlen_witness :
    usbhid_get_report 0 8 (some 3) = (0, some 8)
    ∧ usbhid_get_report 5 8 (some 3) = (5, some 3) :=
  ⟨(usbhid_get_report_actlen 0 8 (some 3)).1 rfl 3 rfl,
   (usbhid_get_report_actlen 5 8 (some 3)).2 (by decide)⟩

/-- C4: shape of the I2C GET_REPORT command frame. For report IDs below 15
the frame is the 6 bytes command-register low, command-register high,
id with the report type in the high nibble, the GET_REPORT opcode,
data-register low, data-register high; for IDs of 15 and above it is 7
bytes, with 0xF in the low nibble of byte 2 and the full ID as byte 4. -/
theorem iichid_get_report_framing (cmdreg dtareg typ id : Nat)
    (hc : cmdreg < 65536) (hd : dtareg < 65536) (ht : typ < 16)
    (hi : id < 256) :
    (id < 15 →
      iichid_get_report_frame cmdreg dtareg typ id =
        [cmdreg % 256, cmdreg / 256, id ||| (typ <<< 4),
         I2C_HID_CMD_GET_REPORT, dtareg % 256, dtareg / 256]
      ∧ (iichid_get_report_frame cmdreg dtareg typ id).length = 6)
    ∧ (15 ≤ id →
      iichid_get_report_frame cmdreg dtareg typ id =
        [cmdreg % 256, cmdreg / 256, 15 ||| (typ <<< 4),
         I2C_HID_CMD_GET_REPORT, id, dtareg % 256, dtareg / 256]
      ∧ (iichid_get_report_frame cmdreg dtareg typ id).length = 7
      ∧ (iichid_get_report_frame cmdreg dtareg typ id).getD 4 0 = id) := by
  have hdc : (cmdreg / 256) % 256 = cmdreg / 256 := by omega
  have hdd : (dtareg / 256) % 256 = dtareg / 256 := by omega
  have hmm : (dtareg % 256) % 256 = dtareg % 256 := by omega
  have ht4 : typ < 2 ^ 4 := by omega
  constructor
  · intro hlt
    have hnot : ¬ (15 ≤ id) := by omega
    have hor : id ||| (typ <<< 4) < 256 := by
      rw [Nat.lor_comm]
      have h1 : id < 2 ^ 4 := by omega
      simpa using Nat.append_lt h1 ht4
    have hfr : iichid_get_report_frame cmdreg dtareg typ id =
        [cmdreg % 256, cmdreg / 256, id ||| (typ <<< 4),
         I2C_HID_CMD_GET_REPORT, dtareg % 256, dtareg / 256] := by
      simp [iichid_get_report_frame, iichid_get_report_cmd,
        iichid_get_report_cmdlen, hnot, hdc, hdd, hmm,
        Nat.mod_eq_of_lt hor, I2C_HID_CMD_GET_REPORT]
    exact ⟨hfr, by rw [hfr]; rfl⟩
  · intro hge
    have hor : 15 ||| (typ <<< 4) < 256 := by
      rw [Nat.lor_comm]
      have h1 : (15 : Nat) < 2 ^ 4 := by omega
      simpa using Nat.append_lt h1 ht4
    have hfr : iichid_get_report_frame cmdreg dtareg typ id =
        [cmdreg % 256, cmdreg / 256, 15 ||| (typ <<< 4),
         I2C_HID_CMD_GET_REPORT, id, dtareg % 256, dtareg / 256] := by
      simp [iichid_get_report_frame, iichid_get_report_cmd,
        iichid_get_report_cmdlen, hge, hdc, hdd, hmm,
        Nat.mod_eq_of_lt hor, Nat.mod_eq_of_lt hi, I2C_HID_CMD_GET_REPORT]
    exact ⟨hfr, by rw [hfr]; rfl, by rw [hfr]; rfl⟩

/-- Witness for the C4 theorem: report ID 8 (below 15) with the register
values from the source comment, and report ID 20 (at least 15) whose
explicit ID byte equals 20. -/
theorem iichid_get_report_framing_witness :
    iichid_get_report_frame 34 35 3 8 =
      [34, 0, 8 ||| (3 <<< 4), I2C_HID_CMD_GET_REPORT, 35, 0]
    ∧ (iichid_get_report_frame 34 35 3 20).length = 7
    ∧ (iichid_get_report_frame 34 35 3 20).getD 4 0 = 20 :=
  ⟨((iichid_get_report_framing 34 35 3 8 (by decide) (by decide) (by decide)
      (by decide)).1 (by decide)).1,
   ((iichid_get_report_framing 34 35 3 20 (by decide) (by decide) (by decide)
      (by decide)).2 (by decide)).2.1,
   ((iichid_get_report_framing 34 35 3 20 (by decide) (by decide) (by decide)
      (by decide)).2 (by decide)).2.2⟩

/-- C5: response handling of the I2C GET_REPORT exchange — a transport-level
fetch failure returns EIO with nothing copied out; a declared-length
mismatch is only logged and the call still copies the payload out and
returns 0; an echoed-ID mismatch is fatal, copying nothing and returning the
nonzero value 1. -/
theorem iichid_get_report_response (id len : Nat) (fetch : Option (List Nat)) :
    (fetch = none →
      (iichid_get_report id len fetch).ret = EIO
      ∧ (iichid_get_report id len fetch).copied = none)
    ∧ (∀ tmprep, fetch = some tmprep →
        (iichid_echoed_id id tmprep = id →
          (iichid_get_report id len fetch).ret = 0
          ∧ (iichid_get_report id len fetch).copied =
              some ((tmprep.drop (2 + iichid_report_id_len id)).take len)
          ∧ (iichid_declared_len tmprep ≠ len + 2 + iichid_report_id_len id →
              (iichid_get_report id len fetch).loggedLenMismatch = true))
        ∧ (iichid_echoed_id id tmprep ≠ id →
            (iichid_get_report id len fetch).ret = 1
            ∧ (iichid_get_report id len fetch).copied = none)) := by
  constructor
  · rintro rfl
    exact ⟨rfl, rfl⟩
  · rintro tmprep rfl
    constructor
    · intro hid
      have hne : ¬ (iichid_echoed_id id tmprep ≠ id) := fun h => h hid
      refine ⟨?_, ?_, ?_⟩
      · simp [iichid_get_report, hne]
      · simp [iichid_get_report, hne]
      · intro hmm
        simp [iichid_get_report, hne]
        exact hmm
    · intro hne
      exact ⟨by simp [iichid_get_report, hne], by simp [iichid_get_report, hne]⟩

/-- Witness for the C5 theorem: a response with a wrong declared length but
a matching echoed ID succeeds, copies the payload and logs the mismatch. -/
theorem iichid_get_report_response_witness :
    (iichid_get_report 8 2 (some [9, 0, 8, 70, 71])).ret = 0
    ∧ (iichid_get_report 8 2 (some [9, 0, 8, 70, 71])).copied =
        some (([9, 0, 8, 70, 71].drop (2 + iichid_report_id_len 8)).take 2)
    ∧ (iichid_get_report 8 2 (some [9, 0, 8, 70, 71])).loggedLenMismatch =
        true :=
  have h := ((iichid_get_report_response 8 2
    (some [9, 0, 8, 70, 71])).2 [9, 0, 8, 70, 71] rfl).1 (by decide)
  ⟨h.1, h.2.1, h.2.2 (by decide)⟩

/-- C7: runtime mode switching of the acquisition engine. Writing a negative
rate while in poll mode (non-negative current rate) tears the callout down
and arms the interrupt; writing a positive rate while in interrupt mode
(negative current rate) tears the interrupt down, initialises the callout
and schedules it; after either switch exactly one event source is active.
The hypothesis is that the IRQ resource allocation succeeds (irqOk). -/
theorem iichid_sampling_rate_mode_switch (sc : IichidEngine) (v : Int) :
    (0 ≤ sc.sampling_rate → v < 0 →
      (iichid_sysctl_sampling_rate_handler true sc v).irq_active = true
      ∧ (iichid_sysctl_sampling_rate_handler true sc v).callout_armed = false
      ∧ exactlyOneEventSource (iichid_sysctl_sampling_rate_handler true sc v))
    ∧ (sc.sampling_rate < 0 → 0 < v →
      (iichid_sysctl_sampling_rate_handler true sc v).callout_armed = true
      ∧ (iichid_sysctl_sampling_rate_handler true sc v).irq_active = false
      ∧ exactlyOneEventSource (iichid_sysctl_sampling_rate_handler true sc v))
    := by
  constructor
  · intro h1 h2
    have hne : ¬ (v = sc.sampling_rate) := by omega
    have hA : ¬ (sc.sampling_rate < 0 ∧ 0 ≤ v) := by omega
    have hB : 0 ≤ sc.sampling_rate ∧ v < 0 := ⟨h1, h2⟩
    have hC : ¬ (0 < v) := by omega
    have hirq : (iichid_sysctl_sampling_rate_handler true sc v).irq_active =
        true := by
      simp [iichid_sysctl_sampling_rate_handler, hne, hA, hB, hC,
        iichid_teardown_callout, iichid_setup_interrupt]
    have harm : (iichid_sysctl_sampling_rate_handler true sc v).callout_armed =
        false := by
      simp [iichid_sysctl_sampling_rate_handler, hne, hA, hB, hC,
        iichid_teardown_callout, iichid_setup_interrupt]
    exact ⟨hirq, harm, Or.inl ⟨hirq, harm⟩⟩
  · intro h1 h2
    have hne : ¬ (v = sc.sampling_rate) := by omega
    have hA : sc.sampling_rate < 0 ∧ 0 ≤ v := ⟨h1, by omega⟩
    have hv0 : ¬ (v < 0) := by omega
    have hv1 : ¬ (v ≤ 0) := by omega
    have harm : (iichid_sysctl_sampling_rate_handler true sc v).callout_armed =
        true := by
      simp [iichid_sysctl_sampling_rate_handler, hne, hA, h2, hv0, hv1,
        iichid_teardown_interrupt, iichid_setup_callout, iichid_reset_callout]
    have hirq : (iichid_sysctl_sampling_rate_handler true sc v).irq_active =
        false := by
      simp [iichid_sysctl_sampling_rate_handler, hne, hA, h2, hv0, hv1,
        iichid_teardown_interrupt, iichid_setup_callout, iichid_reset_callout]
    exact ⟨harm, hirq, Or.inr ⟨hirq, harm⟩⟩

/-- Witness for the C7 theorem: the spec's rate=10 to rate=-1 switch and the
reverse one. -/
theorem iichid_sampling_rate_mode_switch_witness :
    ((iichid_sysctl_sampling_rate_handler true
        { sampling_rate := 10, callout_setup := true, callout_armed := true,
          irq_active := false } (-1)).irq_active = true
      ∧ (iichid_sysctl_sampling_rate_handler true
          { sampling_rate := 10, callout_setup := true, callout_armed := true,
            irq_active := false } (-1)).callout_armed = false
      ∧ exactlyOneEventSource (iichid_sysctl_sampling_rate_handler true
          { sampling_rate := 10, callout_setup := true, callout_armed := true,
            irq_active := false } (-1)))
    ∧ ((iichid_sysctl_sampling_rate_handler true
        { sampling_rate := -1, callout_setup := false, callout_armed := false,
          irq_active := true } 10).callout_armed = true
      ∧ (iichid_sysctl_sampling_rate_handler true
          { sampling_rate := -1, callout_setup := false, callout_armed := false,
            irq_active := true } 10).irq_active = false
      ∧ exactlyOneEventSource (iichid_sysctl_sampling_rate_handler true
          { sampling_rate := -1, callout_setup := false, callout_armed := false,
            irq_active := true } 10)) :=
  ⟨(iichid_sampling_rate_mode_switch
      { sampling_rate := 10, callout_setup := true, callout_armed := true,
        irq_active := false } (-1)).1 (by decide) (by decide),
   (iichid_sampling_rate_mode_switch
      { sampling_rate := -1, callout_setup := false, callout_armed := false,
        irq_active := true } 10).2 (by decide) (by decide)⟩

/-- Unfolding of the enumeration loop: starting from a counter value that
cannot overflow, the created records carry consecutive indices, the usages of
the top level collections in encounter order, and the final counter value is
the start plus the number of top level collections. -/
theorem hidbus_enumerate_loop_spec (items : List HidItem) :
    ∀ index : Nat, index + (items.filter isTopLevelCollection).length ≤ 255 →
      (hidbus_enumerate_loop items index).1.map TlcChild.index =
        List.range' index (items.filter isTopLevelCollection).length
      ∧ (hidbus_enumerate_loop items index).1.map TlcChild.usage =
          (items.filter isTopLevelCollection).map HidItem.usage
      ∧ (hidbus_enumerate_loop items index).2 =
          index + (items.filter isTopLevelCollection).length := by
  induction items with
  | nil =>
    intro index h
    simp [hidbus_enumerate_loop]
  | cons hi rest ih =>
    intro index h
    by_cases hcol : hi.kind = HidKind.collection ∧ hi.collevel = 1
    · have hfil : isTopLevelCollection hi = true := by
        simp [isTopLevelCollection, hcol]
      rw [List.filter_cons_of_pos hfil] at h ⊢
      have hlen : (hi :: rest.filter isTopLevelCollection).length =
          (rest.filter isTopLevelCollection).length + 1 := by simp
      have hmod : (index + 1) % 256 = index + 1 := by
        rw [hlen] at h
        omega
      have ih1 := ih (index + 1) (by rw [hlen] at h; omega)
      simp only [hidbus_enumerate_loop, if_pos hcol, hmod, List.map_cons,
        List.length_cons, List.range'_succ]
      refine ⟨?_, ?_, ?_⟩
      · simpa using ih1.1
      · simpa using ih1.2.1
      · rw [ih1.2.2]
        omega
    · have hfil : isTopLevelCollection hi = false := by
        simp [isTopLevelCollection, hcol]
      rw [List.filter_cons_of_neg (by simp [hfil])] at h ⊢
      simpa [hidbus_enumerate_loop, if_neg hcol] using ih index h

set_option maxRecDepth 4000 in
/-- C1 counterexample: the enumeration index is a uint8_t, so a descriptor
with 256 top level collections wraps the counter back to zero and enumeration
fails with ENXIO (and the bus does not attach) although the descriptor
contains at least one top level collection. -/
theorem hidbus_enumeration_index_wrap_counterexample :
    ((List.replicate 256 (⟨HidKind.collection, 1, 7⟩ : HidItem)).filter
        isTopLevelCollection).length = 256
    ∧ hidbus_enumerate_children
        (some (List.replicate 256 (⟨HidKind.collection, 1, 7⟩ : HidItem))) =
        Except.error ENXIO
    ∧ hidbus_attach
        (some (List.replicate 256 (⟨HidKind.collection, 1, 7⟩ : HidItem))) =
        Except.error ENXIO :=
  ⟨rfl, rfl, rfl⟩

/-- C1 (amended): for a report descriptor with N top level collections at
nesting level 1 and 1 ≤ N ≤ 255, enumeration creates exactly N subscriber
records with ordinal indices 0..N-1 in encounter order, carrying the
collections' usages; with zero such collections (or with the descriptor
fetch failing) enumeration fails with ENXIO and the attach fails, leaving no
subscriber set. (The bound 255 exists because the index counter is 8 bits
wide.) -/
theorem hidbus_enumeration_spec (items : List HidItem) :
    (1 ≤ (items.filter isTopLevelCollection).length →
      (items.filter isTopLevelCollection).length ≤ 255 →
      ∃ ts, hidbus_enumerate_children (some items) = Except.ok ts
        ∧ ts.length = (items.filter isTopLevelCollection).length
        ∧ ts.map TlcChild.index =
            List.range (items.filter isTopLevelCollection).length
        ∧ ts.map TlcChild.usage =
            (items.filter isTopLevelCollection).map HidItem.usage)
    ∧ ((items.filter isTopLevelCollection).length = 0 →
        hidbus_enumerate_children (some items) = Except.error ENXIO
        ∧ hidbus_attach (some items) = Except.error ENXIO)
    ∧ hidbus_enumerate_children none = Except.error ENXIO
    ∧ hidbus_attach none = Except.error ENXIO := by
  refine ⟨?_, ?_, rfl, rfl⟩
  · intro h1 h255
    obtain ⟨hmapidx, hmapusg, hfinal⟩ :=
      hidbus_enumerate_loop_spec items 0 (by omega)
    have hok : hidbus_enumerate_children (some items) =
        Except.ok (hidbus_enumerate_loop items 0).1 := by
      simp only [hidbus_enumerate_children]
      rw [if_neg]
      rw [hfinal]
      omega
    refine ⟨(hidbus_enumerate_loop items 0).1, hok, ?_, ?_, hmapusg⟩
    · have := congrArg List.length hmapidx
      simpa using this
    · rw [List.range_eq_range']
      simpa using hmapidx
  · intro h0
    obtain ⟨_, _, hfinal⟩ := hidbus_enumerate_loop_spec items 0 (by omega)
    rw [h0] at hfinal
    have herr : hidbus_enumerate_children (some items) = Except.error ENXIO := by
      simp only [hidbus_enumerate_children]
      rw [if_pos]
      omega
    exact ⟨herr, by simp [hidbus_attach, herr]⟩

/-- Witness for the C1 theorem: a descriptor with two top level collections
(usages 1 and 2) and one nested item enumerates to indices 0 and 1. -/
theorem hidbus_enumeration_spec_witness :
    ∃ ts,
      hidbus_enumerate_children
        (some [⟨HidKind.collection, 1, 1⟩, ⟨HidKind.input, 2, 5⟩,
               ⟨HidKind.collection, 1, 2⟩]) = Except.ok ts
      ∧ ts.length =
          (([⟨HidKind.collection, 1, 1⟩, ⟨HidKind.input, 2, 5⟩,
             ⟨HidKind.collection, 1, 2⟩] : List HidItem).filter
            isTopLevelCollection).length
      ∧ ts.map TlcChild.index =
          List.range
            (([⟨HidKind.collection, 1, 1⟩, ⟨HidKind.input, 2, 5⟩,
               ⟨HidKind.collection, 1, 2⟩] : List HidItem).filter
              isTopLevelCollection).length
      ∧ ts.map TlcChild.usage =
          (([⟨HidKind.collection, 1, 1⟩, ⟨HidKind.input, 2, 5⟩,
             ⟨HidKind.collection, 1, 2⟩] : List HidItem).filter
            isTopLevelCollection).map HidItem.usage :=
  (hidbus_enumeration_spec
    [⟨HidKind.collection, 1, 1⟩, ⟨HidKind.input, 2, 5⟩,
     ⟨HidKind.collection, 1, 2⟩]).1 (by decide) (by decide)

end HidSpec
